import Mathlib

/-!
Verification of the HPX resource partitioner
(`libs/core/resource_partitioner/src/detail_partitioner.cpp`).

The C++ code is shallowly embedded: `std::size_t` is modelled as `Nat`
with an explicit `% 2 ^ 64` where wrap-around matters, `threads::mask_type`
as `List Bool`, throwing functions return `Except Err _`, and methods that
mutate the partitioner before possibly throwing return the post-call state
alongside the outcome.  The external collaborators (config store, topology
provider, affinity data) appear as plain data fields, exactly at the
interface the partitioner uses.
-/

set_option linter.unusedVariables false

namespace HpxRp

/-- Error kinds thrown by the partitioner, following the repository's error
taxonomy: `throw_invalid_argument` / `std::invalid_argument` map to
`bad_parameter`, `std::runtime_error` to `runtime`, `throw_runtime_error`
(which raises `hpx::error::invalid_status`) to `invalid_status`, and
`hpx::detail::command_line_error` to `command_line_error`. -/
inductive Err where
  | bad_parameter
  | runtime
  | invalid_status
  | command_line_error
  deriving DecidableEq

instance {ε α : Type _} [DecidableEq ε] [DecidableEq α] :
    DecidableEq (Except ε α)
  | .error a, .error b =>
    if h : a = b then .isTrue (by rw [h])
    else .isFalse (fun hh => h (Except.error.inj hh))
  | .error _, .ok _ => .isFalse Except.noConfusion
  | .ok _, .error _ => .isFalse Except.noConfusion
  | .ok a, .ok b =>
    if h : a = b then .isTrue (by rw [h])
    else .isFalse (fun hh => h (Except.ok.inj hh))

/-- The `resource::scheduling_policy` enumeration. -/
inductive scheduling_policy where
  | unspecified
  | user_defined
  | local_
  | local_priority_fifo
  | local_priority_lifo
  | local_workrequesting_fifo
  | local_workrequesting_lifo
  | local_workrequesting_mc
  | static_
  | static_priority
  | abp_priority_fifo
  | abp_priority_lifo
  | shared_priority
  deriving DecidableEq

/-- Model of `threads::mask_type` after `resize(mask, size); set(mask, idx)`:
a bit-list of the given size whose only set bit is `idx`. -/
def mk_mask (size idx : Nat) : List Bool :=
  (List.range size).map (fun j => j == idx)

/-- One entry of `assigned_pu_nums_`: the `hpx::tuple<std::size_t, bool, bool>`
holding `(pu_id, exclusive, assigned)`. -/
structure PuTuple where
  pu_id : Nat
  exclusive : Bool
  assigned : Bool
  deriving DecidableEq

/-- `resource::detail::init_pool_data` (the PoolSpec): name, scheduling
policy, thread count, per-thread PU masks and `(pu_id, exclusive, assigned)`
tuples.  The scheduler-mode bitset and the two closures are omitted: no
claim observes them. -/
structure init_pool_data where
  pool_name : String
  scheduling_policy_ : scheduling_policy
  num_threads : Nat
  assigned_pus : List (List Bool)
  assigned_pu_nums : List PuTuple
  deriving DecidableEq

/-- A freshly constructed `init_pool_data` (both constructors yield zero
threads and empty PU vectors). -/
def init_pool_data.fresh (name : String) (sched : scheduling_policy) :
    init_pool_data :=
  { pool_name := name
    scheduling_policy_ := sched
    num_threads := 0
    assigned_pus := []
    assigned_pu_nums := [] }

/-- The mutation performed by `init_pool_data::add_resource` once its bounds
check has passed (detail_partitioner.cpp:105-120): append `num_threads`
copies of the one-hot mask and of the `(pu_index, exclusive, false)` tuple,
incrementing `num_threads_`. -/
def init_pool_data.append_resource (hc : Nat) (pu_index : Nat) (excl : Bool)
    (num_threads : Nat) (d : init_pool_data) : init_pool_data :=
  { d with
    num_threads := d.num_threads + num_threads
    assigned_pus := d.assigned_pus ++ List.replicate num_threads (mk_mask hc pu_index)
    assigned_pu_nums :=
      d.assigned_pu_nums ++ List.replicate num_threads ⟨pu_index, excl, false⟩ }

/-- `init_pool_data::add_resource` (detail_partitioner.cpp:92-121): bounds
check on the PU index, then the append.  The accompanying increment of the
static `num_threads_overall` counter is performed by the caller
(`partitioner.try_append`), which owns that state. -/
def init_pool_data.add_resource (hc : Nat) (d : init_pool_data)
    (pu_index : Nat) (excl : Bool) (num_threads : Nat) :
    Except Err init_pool_data :=
  if hc ≤ pu_index then .error .bad_parameter
  else .ok (d.append_resource hc pu_index excl num_threads)

/-- `init_pool_data::assign_pu` (detail_partitioner.cpp:187-194): set the
third tuple field at index `virt_core` to `true`.  The `HPX_ASSERT`
preconditions are no-ops in release builds; an out-of-bounds `List.set` is
the identity. -/
def init_pool_data.assign_pu (d : init_pool_data) (virt_core : Nat) :
    init_pool_data :=
  let t := { d.assigned_pu_nums.getD virt_core ⟨0, false, false⟩ with assigned := true }
  { d with assigned_pu_nums := d.assigned_pu_nums.set virt_core t }

/-- `init_pool_data::unassign_pu` (detail_partitioner.cpp:196-203): set the
third tuple field at index `virt_core` to `false`. -/
def init_pool_data.unassign_pu (d : init_pool_data) (virt_core : Nat) :
    init_pool_data :=
  let t := { d.assigned_pu_nums.getD virt_core ⟨0, false, false⟩ with assigned := false }
  { d with assigned_pu_nums := d.assigned_pu_nums.set virt_core t }

/-- `init_pool_data::pu_is_exclusive` (second tuple field). -/
def init_pool_data.pu_is_exclusive (d : init_pool_data) (virt_core : Nat) : Bool :=
  (d.assigned_pu_nums.getD virt_core ⟨0, false, false⟩).exclusive

/-- `init_pool_data::pu_is_assigned` (third tuple field). -/
def init_pool_data.pu_is_assigned (d : init_pool_data) (virt_core : Nat) : Bool :=
  (d.assigned_pu_nums.getD virt_core ⟨0, false, false⟩).assigned

/-- The guarding assertion of `init_pool_data::assign_pu` / `unassign_pu`
(detail_partitioner.cpp:189,198): `HPX_ASSERT(virt_core <= assigned_pu_nums_.size())`. -/
def assign_pu_assert_pre (d : init_pool_data) (virt_core : Nat) : Prop :=
  virt_core ≤ d.assigned_pu_nums.length

instance (d : init_pool_data) (v : Nat) : Decidable (assign_pu_assert_pre d v) := by
  unfold assign_pu_assert_pre; infer_instance

/-- Whether the subsequent access `assigned_pu_nums_[virt_core]` is within
the vector's bounds. -/
def assign_pu_access_in_bounds (d : init_pool_data) (virt_core : Nat) : Prop :=
  virt_core < d.assigned_pu_nums.length

instance (d : init_pool_data) (v : Nat) : Decidable (assign_pu_access_in_bounds d v) := by
  unfold assign_pu_access_in_bounds; infer_instance

/-- The value range of `std::size_t`: arithmetic on it wraps modulo `2 ^ 64`. -/
def size_t_mod : Nat := 2 ^ 64

/-- `static_cast<std::size_t>(-1)`, the sentinel for an unset `first_core_`
and `pus_needed_`. -/
def size_t_unset : Nat := size_t_mod - 1

/-- `init_pool_data::assign_first_core` (detail_partitioner.cpp:222-233):
for each of the first `num_threads_` entries, shift the tuple's `pu_id` by
the given offset modulo `hardware_concurrency` (the addition itself wraps in
`std::size_t`), and rebuild the corresponding mask as the one-hot mask of
the new `pu_id` at the mask's existing size. -/
def init_pool_data.assign_first_core (hc : Nat) (offset : Nat)
    (d : init_pool_data) : init_pool_data :=
  let shifted := (d.assigned_pu_nums.take d.num_threads).map
    (fun t => { t with pu_id := ((t.pu_id + offset) % size_t_mod) % hc })
  let masks := ((d.assigned_pus.take d.num_threads).zip shifted).map
    (fun mt => mk_mask mt.1.length mt.2.pu_id)
  { d with
    assigned_pu_nums := shifted ++ d.assigned_pu_nums.drop d.num_threads
    assigned_pus := masks ++ d.assigned_pus.drop d.num_threads }

/-- A `resource::pu` leaf of the topology mirror: global id, thread
occupancy, and the mutable occupancy count. -/
structure pu where
  id : Nat
  thread_occupancy : Nat
  thread_occupancy_count : Nat
  deriving DecidableEq

/-- The `partitioner_mode` flag bits read by the partitioner. -/
structure partitioner_mode where
  allow_dynamic_pools : Bool
  allow_oversubscription : Bool
  deriving DecidableEq

/-- The topology provider operations the partitioner consumes. -/
structure topology where
  hc : Nat
  num_core_pus : Nat → Nat

/-- The affinity-data collaborator at the interface used here: the four query
functions, the cached `get_num_pus_needed`, and the three vectors rewritten by
`reconfigure_affinities`. -/
structure affinity_data where
  pu_num_f : Nat → Nat
  pu_mask_f : Nat → List Bool
  used_pus_mask_f : Nat → List Bool
  thread_occupancy_f : Nat → Nat
  num_pus_needed : Nat
  num_threads : Nat
  pu_nums : List Nat
  affinity_masks : List (List Bool)

/-- `resource::detail::partitioner`: the pool vector, the global
`num_threads_overall` counter (a class static in the source), the cached
`first_core_` and `pus_needed_`, the mode flags, the `is_initialized_` flag,
the config entries the code reads (`hpx.os_threads`, `hpx.scheduler`), the
default pool's (possibly renamed) name, the topology mirror
(NUMA domain → core → PU), and the external collaborators. -/
structure partitioner where
  initial_thread_pools : List init_pool_data
  num_threads_overall : Nat
  first_core : Nat
  pus_needed : Nat
  mode : partitioner_mode
  is_initialized : Bool
  os_threads : Nat
  scheduler_entry : String
  default_pool_name : String
  numa_domains : List (List (List pu))
  topo : topology
  affinity : affinity_data

/-- `partitioner::get_pool_data(lock, name)` turned into an updater: apply
`f` to the first pool whose name matches (the source's `std::find_if` order);
an unknown name throws `bad_parameter`. -/
def update_pool (name : String)
    (f : init_pool_data → Except Err init_pool_data) :
    List init_pool_data → Except Err (List init_pool_data)
  | [] => .error .bad_parameter
  | d :: rest =>
    if d.pool_name == name then (f d).map (fun d2 => d2 :: rest)
    else (update_pool name f rest).map (fun ps => d :: ps)

/-- Lookup half of `get_pool_data(lock, name)`: the first pool with the
given name. -/
def find_pool (name : String) (pools : List init_pool_data) :
    Option init_pool_data :=
  pools.find? (fun d => d.pool_name == name)

/-- The common mutation step of `partitioner::add_resource`: route
`init_pool_data::add_resource` to the named pool and bump the static
`num_threads_overall` counter. -/
def partitioner.try_append (s : partitioner) (pool_name : String)
    (pu_index : Nat) (excl : Bool) (num_threads : Nat) :
    Except Err partitioner :=
  match update_pool pool_name
      (fun d => d.add_resource s.topo.hc pu_index excl num_threads)
      s.initial_thread_pools with
  | .error e => .error e
  | .ok ps => .ok { s with
      initial_thread_pools := ps
      num_threads_overall := s.num_threads_overall + num_threads }

/-- `partitioner::add_resource(pu, pool_name, exclusive, num_threads)`
(detail_partitioner.cpp:713-771).  The C++ method mutates the partitioner
and the PU's occupancy count before the budget-overshoot throw, so the model
returns the outcome together with the partitioner and PU state as left
behind by the call (the states are unchanged on the error paths whose throw
precedes any mutation). -/
def partitioner.add_resource (s : partitioner) (p : pu) (pool_name : String)
    (excl : Bool) (num_threads : Nat) :
    Except Err Unit × partitioner × pu :=
  if !excl && !s.mode.allow_dynamic_pools then
    (.error .bad_parameter, s, p)
  else if s.mode.allow_oversubscription then
    match s.try_append pool_name p.id excl num_threads with
    | .error e => (.error e, s, p)
    | .ok s1 =>
      (.ok (), s1, { p with thread_occupancy_count := p.thread_occupancy_count + 1 })
  else if p.thread_occupancy_count == 0 then
    match s.try_append pool_name p.id excl num_threads with
    | .error e => (.error e, s, p)
    | .ok s1 =>
      let p1 := { p with thread_occupancy_count := p.thread_occupancy_count + 1 }
      if s.os_threads < s1.num_threads_overall then (.error .runtime, s1, p1)
      else (.ok (), s1, p1)
  else (.error .runtime, s, p)

/-- Inner loop of `partitioner::setup_pools` (detail_partitioner.cpp:428-442)
over one core's PUs: each PU whose `thread_occupancy_count_` is zero is added
to the default pool with `exclusive = first || !allow_dynamic_pools`, `first`
turning false after the first such PU.  Returns the partitioner, the PUs with
their updated occupancy counts, and the outgoing `first` flag. -/
def partitioner.setup_pu_loop (s : partitioner) (first : Bool) :
    List pu → Except Err (partitioner × List pu × Bool)
  | [] => .ok (s, [], first)
  | p :: rest =>
    if p.thread_occupancy_count == 0 then
      match s.add_resource p s.default_pool_name
          (first || !s.mode.allow_dynamic_pools) 1 with
      | (.error e, _, _) => .error e
      | (.ok _, s1, p1) =>
        match s1.setup_pu_loop false rest with
        | .error e => .error e
        | .ok (s2, ps, f) => .ok (s2, p1 :: ps, f)
    else
      match s.setup_pu_loop first rest with
      | .error e => .error e
      | .ok (s2, ps, f) => .ok (s2, p :: ps, f)

/-- Middle loop of `setup_pools` over the cores of one NUMA domain. -/
def partitioner.setup_core_loop (s : partitioner) (first : Bool) :
    List (List pu) → Except Err (partitioner × List (List pu) × Bool)
  | [] => .ok (s, [], first)
  | c :: rest =>
    match s.setup_pu_loop first c with
    | .error e => .error e
    | .ok (s1, c1, f1) =>
      match s1.setup_core_loop f1 rest with
      | .error e => .error e
      | .ok (s2, cs, f2) => .ok (s2, c1 :: cs, f2)

/-- Outer loop of `setup_pools` over the NUMA domains. -/
def partitioner.setup_domain_loop (s : partitioner) (first : Bool) :
    List (List (List pu)) → Except Err (partitioner × List (List (List pu)) × Bool)
  | [] => .ok (s, [], first)
  | d :: rest =>
    match s.setup_core_loop first d with
    | .error e => .error e
    | .ok (s1, d1, f1) =>
      match s1.setup_domain_loop f1 rest with
      | .error e => .error e
      | .ok (s2, ds, f2) => .ok (s2, d1 :: ds, f2)

/-- `partitioner::check_empty_pools` (detail_partitioner.cpp:606-627): true
iff some pool has an empty `assigned_pus_` vector or holds an all-zero mask. -/
def check_empty_pools (pools : List init_pool_data) : Bool :=
  pools.any (fun d => d.assigned_pus.isEmpty || d.assigned_pus.any (fun m => !m.any id))

/-- `partitioner::setup_pools` (detail_partitioner.cpp:420-469): walk the
topology mirror filling free PUs into the default pool, then fail with
`invalid_status` if the default pool has no threads or if some pool is empty
of resources. -/
def partitioner.setup_pools (s : partitioner) : Except Err partitioner :=
  match s.setup_domain_loop true s.numa_domains with
  | .error e => .error e
  | .ok (s1, ds, _) =>
    let s2 := { s1 with numa_domains := ds }
    match find_pool s2.default_pool_name s2.initial_thread_pools with
    | none => .error .bad_parameter
    | some d =>
      if d.num_threads == 0 then .error .invalid_status
      else if check_empty_pools s2.initial_thread_pools then .error .invalid_status
      else .ok s2

/-- Model of one `0 == std::string(known).find(user)` test of
`setup_schedulers`: the first match of `user` in `known` sits at position 0,
i.e. the user string is a prefix of the known scheduler name. -/
def find_at_zero (known u : String) : Bool :=
  u.data.isPrefixOf known.data

/-- The scheduler-name resolution of `partitioner::setup_schedulers`
(detail_partitioner.cpp:482-543): the if-else chain of prefix tests in the
fixed source scan order; the work-requesting entries are those of the
`HPX_HAVE_WORK_REQUESTING_SCHEDULERS` build.  No test succeeding throws
`command_line_error`. -/
def resolve_scheduler (u : String) : Except Err scheduling_policy :=
  if find_at_zero "local" u then .ok .local_
  else if find_at_zero "local-priority-fifo" u then .ok .local_priority_fifo
  else if find_at_zero "local-priority-lifo" u then .ok .local_priority_lifo
  else if find_at_zero "local-workrequesting-fifo" u then .ok .local_workrequesting_fifo
  else if find_at_zero "local-workrequesting-lifo" u then .ok .local_workrequesting_lifo
  else if find_at_zero "local-workrequesting-mc" u then .ok .local_workrequesting_mc
  else if find_at_zero "static" u then .ok .static_
  else if find_at_zero "static-priority" u then .ok .static_priority
  else if find_at_zero "abp-priority-fifo" u then .ok .abp_priority_fifo
  else if find_at_zero "abp-priority-lifo" u then .ok .abp_priority_lifo
  else if find_at_zero "shared-priority" u then .ok .shared_priority
  else .error .command_line_error

/-- `partitioner::setup_schedulers` (detail_partitioner.cpp:474-556): resolve
`hpx.scheduler` (the runtime configuration presets this entry to
`local-priority-fifo`, runtime_configuration.cpp:158), then give every pool
whose policy is `unspecified` the resolved default. -/
def partitioner.setup_schedulers (s : partitioner) : Except Err partitioner :=
  match resolve_scheduler s.scheduler_entry with
  | .error e => .error e
  | .ok default_scheduler =>
    .ok { s with initial_thread_pools := s.initial_thread_pools.map (fun d =>
      if d.scheduling_policy_ == scheduling_policy.unspecified then
        { d with scheduling_policy_ := default_scheduler }
      else d) }

/-- `partitioner::reconfigure_affinities_locked`
(detail_partitioner.cpp:577-602): concatenate all pools' masks and tuple
`pu_id`s in pool order and install them in the affinity data. -/
def partitioner.reconfigure_affinities_locked (s : partitioner) : partitioner :=
  let new_pu_nums := (s.initial_thread_pools.map
    (fun d => d.assigned_pu_nums.map (fun t => t.pu_id))).flatten
  let new_affinity_masks := (s.initial_thread_pools.map
    (fun d => d.assigned_pus)).flatten
  { s with affinity := { s.affinity with
      num_threads := new_pu_nums.length
      pu_nums := new_pu_nums
      affinity_masks := new_affinity_masks } }

/-- `partitioner::threads_needed` (detail_partitioner.cpp:405-413): populate
the cached `pus_needed_` from the affinity data on first use. -/
def partitioner.threads_needed (s : partitioner) : partitioner × Nat :=
  if s.pus_needed == size_t_unset then
    ({ s with pus_needed := s.affinity.num_pus_needed }, s.affinity.num_pus_needed)
  else (s, s.pus_needed)

/-- `partitioner::assign_cores(first_core)` (detail_partitioner.cpp:374-403).
All arithmetic is `std::size_t`: the `offset -= first_core_` subtraction and
the `offset *= num_pus_core` product wrap modulo `2 ^ 64`. -/
def partitioner.assign_cores (s : partitioner) (first_core : Nat) :
    partitioner × Nat :=
  if s.first_core ≠ first_core then
    let offset0 := first_core
    let num_pus_core := s.topo.num_core_pus offset0
    let offset1 :=
      if s.first_core ≠ size_t_unset then
        (offset0 + (size_t_mod - s.first_core % size_t_mod)) % size_t_mod
      else offset0
    let s1 :=
      if offset1 ≠ 0 then
        let offset2 := (offset1 * num_pus_core) % size_t_mod
        let ps := s.initial_thread_pools.map
          (init_pool_data.assign_first_core s.topo.hc offset2)
        { s with initial_thread_pools := ps }
      else s
    let s2 := { s1 with first_core := first_core }
    s2.reconfigure_affinities_locked.threads_needed
  else s.threads_needed

/-- `partitioner::get_pu_num` (detail_partitioner.cpp:936-944): defer to the
affinity data once initialized, return the argument itself before that. -/
def partitioner.get_pu_num (s : partitioner) (global_thread_num : Nat) : Nat :=
  if s.is_initialized then s.affinity.pu_num_f global_thread_num
  else global_thread_num

/-- `partitioner::get_thread_occupancy` (detail_partitioner.cpp:946-949):
always delegates to `affinity_data_.get_thread_occupancy`, with no
`is_initialized_` branch. -/
def partitioner.get_thread_occupancy (s : partitioner) (pu_num : Nat) : Nat :=
  s.affinity.thread_occupancy_f pu_num

/-- `partitioner::get_used_pus_mask` (detail_partitioner.cpp:951-963). -/
def partitioner.get_used_pus_mask (s : partitioner) (pu_num : Nat) : List Bool :=
  if s.is_initialized then s.affinity.used_pus_mask_f pu_num
  else mk_mask s.topo.hc pu_num

/-- `partitioner::get_pu_mask` (detail_partitioner.cpp:965-978). -/
def partitioner.get_pu_mask (s : partitioner) (global_thread_num : Nat) : List Bool :=
  if s.is_initialized then s.affinity.pu_mask_f global_thread_num
  else mk_mask s.topo.hc global_thread_num

/-- `partitioner::assign_pu(pool_name, virt_core)`
(detail_partitioner.cpp:1006-1012). -/
def partitioner.assign_pu (s : partitioner) (pool_name : String)
    (virt_core : Nat) : Except Err partitioner :=
  match update_pool pool_name (fun d => .ok (d.assign_pu virt_core))
      s.initial_thread_pools with
  | .error e => .error e
  | .ok ps => .ok { s with initial_thread_pools := ps }

/-- `partitioner::unassign_pu(pool_name, virt_core)`
(detail_partitioner.cpp:1014-1023): guarded by a try-lock, so the call is a
no-op when the partitioner mutex is already held; `lock_available` models
whether the try-lock succeeds. -/
def partitioner.unassign_pu (s : partitioner) (pool_name : String)
    (virt_core : Nat) (lock_available : Bool) : Except Err partitioner :=
  if lock_available then
    match update_pool pool_name (fun d => .ok (d.unassign_pu virt_core))
        s.initial_thread_pools with
    | .error e => .error e
    | .ok ps => .ok { s with initial_thread_pools := ps }
  else .ok s

/-- `partitioner::shrink_pool(pool_name, remove_pu)`
(detail_partitioner.cpp:1025-1070).  The result carries the list of
arguments handed to `remove_pu`, in invocation order, together with the
function's return value `pu_nums_to_remove.size()`.  Note that the source
pushes the loop index `i` (the virtual-core number) into
`pu_nums_to_remove`, not the tuple's `pu_id`. -/
def partitioner.shrink_pool (s : partitioner) (pool_name : String) :
    Except Err (List Nat × Nat) :=
  if !s.mode.allow_dynamic_pools then .error .bad_parameter
  else
    match find_pool pool_name s.initial_thread_pools with
    | none => .error .bad_parameter
    | some data =>
      let pu_nums_to_remove := (List.range data.num_threads).filter
        (fun i => !data.pu_is_exclusive i && data.pu_is_assigned i)
      let has_non_exclusive_pus := (List.range data.num_threads).any
        (fun i => !data.pu_is_exclusive i)
      if !has_non_exclusive_pus then .error .bad_parameter
      else .ok (pu_nums_to_remove, pu_nums_to_remove.length)

/-- `partitioner::create_thread_pool(pool_name, sched, mode, func)`
(detail_partitioner.cpp:630-667): empty name throws; the default pool's name
replaces the index-0 entry in place; a duplicate among the pools at indices
`1..` throws; otherwise a fresh pool is appended. -/
def partitioner.create_thread_pool (s : partitioner) (pool_name : String)
    (sched : scheduling_policy) : Except Err partitioner :=
  if pool_name == "" then .error .bad_parameter
  else if pool_name == s.default_pool_name then
    let d0 := init_pool_data.fresh s.default_pool_name sched
    .ok { s with initial_thread_pools := s.initial_thread_pools.set 0 d0 }
  else if (s.initial_thread_pools.drop 1).any (fun d => d.pool_name == pool_name) then
    .error .bad_parameter
  else
    let d := init_pool_data.fresh pool_name sched
    .ok { s with initial_thread_pools := s.initial_thread_pools ++ [d] }

/-- `partitioner::get_pool_index(pool_name)`
(detail_partitioner.cpp:1120-1144): the literal name `"default"` always
resolves to index 0; any other name is looked up by a linear scan from
index 0; an unknown name throws `bad_parameter`. -/
def partitioner.get_pool_index (s : partitioner) (pool_name : String) :
    Except Err Nat :=
  if pool_name == "default" then .ok 0
  else
    match s.initial_thread_pools.findIdx? (fun d => d.pool_name == pool_name) with
    | some i => .ok i
    | none => .error .bad_parameter

/-! Specification-side definitions used to state the theorems. -/

/-- Infallible counterpart of `update_pool`: apply `f` to the first pool of
the given name, leaving the rest untouched. -/
def apply_first (name : String) (f : init_pool_data → init_pool_data) :
    List init_pool_data → List init_pool_data
  | [] => []
  | d :: rest =>
    if d.pool_name == name then f d :: rest
    else d :: apply_first name f rest

/-- The tuples that the `setup_pools` walk appends to the default pool: one
`(p.id, first || !allow_dynamic_pools, false)` entry per PU whose occupancy
count is zero, `first` turning false after the first such PU. -/
def bound_tuples (dyn : Bool) : Bool → List pu → List PuTuple
  | _, [] => []
  | first, p :: rest =>
    if p.thread_occupancy_count == 0 then
      ⟨p.id, first || !dyn, false⟩ :: bound_tuples dyn false rest
    else bound_tuples dyn first rest

/-- The accumulated effect of the `setup_pools` walk on the default pool. -/
def bind_pool (hc : Nat) (dyn : Bool) : Bool → List pu → init_pool_data → init_pool_data
  | _, [], d => d
  | first, p :: rest, d =>
    if p.thread_occupancy_count == 0 then
      bind_pool hc dyn false rest (d.append_resource hc p.id (first || !dyn) 1)
    else bind_pool hc dyn first rest d

/-- The known scheduler names of `setup_schedulers` in their scan order,
paired with the policy each one selects, as the claim lists them. -/
def known_scheduler_names : List (String × scheduling_policy) :=
  [("local", .local_),
   ("local-priority-fifo", .local_priority_fifo),
   ("local-priority-lifo", .local_priority_lifo),
   ("local-workrequesting-fifo", .local_workrequesting_fifo),
   ("local-workrequesting-lifo", .local_workrequesting_lifo),
   ("local-workrequesting-mc", .local_workrequesting_mc),
   ("static", .static_),
   ("static-priority", .static_priority),
   ("abp-priority-fifo", .abp_priority_fifo),
   ("abp-priority-lifo", .abp_priority_lifo),
   ("shared-priority", .shared_priority)]

/-- The claim's reading of the `assign_cores` shift, over the integers:
`(pu_num + (first_core - cached_first_core) * pus_per_core) mod
hardware_concurrency`, with an exact (non-wrapping) subtraction. -/
def claimed_shift_int (hc : Nat) (cached first_core ppc pu_id : Int) : Int :=
  (pu_id + (first_core - cached) * ppc) % (hc : Int)

/-- The claim's per-pool effect of `assign_cores`: every entry's `pu_num`
becomes `(pu_num + offset) mod hardware_concurrency` and its mask becomes
the one-hot mask of the new `pu_num`. -/
def claimed_shift_pool (hc off : Nat) (d : init_pool_data) : init_pool_data :=
  { d with
    assigned_pu_nums := d.assigned_pu_nums.map
      (fun t => { t with pu_id := (t.pu_id + off) % hc })
    assigned_pus := d.assigned_pu_nums.map
      (fun t => mk_mask hc ((t.pu_id + off) % hc)) }

/-- The offset the claim prescribes for `assign_cores` (exact arithmetic;
it is only compared with the code on inputs where the subtraction does not
underflow). -/
def claimed_offset (s : partitioner) (first_core : Nat) : Nat :=
  if s.first_core = size_t_unset then first_core * s.topo.num_core_pus first_core
  else (first_core - s.first_core) * s.topo.num_core_pus first_core

/-! Concrete states used to instantiate the theorems. -/

/-- An affinity-data collaborator for concrete instances. -/
def test_affinity : affinity_data :=
  { pu_num_f := fun n => n + 100
    pu_mask_f := fun n => mk_mask 4 (n + 1)
    used_pus_mask_f := fun n => mk_mask 4 (n + 2)
    thread_occupancy_f := fun _ => 1
    num_pus_needed := 4
    num_threads := 0
    pu_nums := []
    affinity_masks := [] }

/-- A 4-PU machine with one PU per core. -/
def test_topo : topology := { hc := 4, num_core_pus := fun _ => 1 }

/-- A freshly constructed partitioner on the test machine: one default pool,
dynamic pools and oversubscription off, 4 OS threads. -/
def base_state : partitioner :=
  { initial_thread_pools := [init_pool_data.fresh "default" .unspecified]
    num_threads_overall := 0
    first_core := size_t_unset
    pus_needed := size_t_unset
    mode := { allow_dynamic_pools := false, allow_oversubscription := false }
    is_initialized := false
    os_threads := 4
    scheduler_entry := "local-priority-fifo"
    default_pool_name := "default"
    numa_domains := []
    topo := test_topo
    affinity := test_affinity }

/-- A partitioner whose thread budget is already fully used
(`num_threads_overall = os_threads = 1`). -/
def c1_state : partitioner :=
  { base_state with num_threads_overall := 1, os_threads := 1 }

/-- A free PU (occupancy count zero). -/
def c1_pu : pu := { id := 0, thread_occupancy := 1, thread_occupancy_count := 0 }

/-- Dynamic pools enabled; mirror of one NUMA domain with two cores of two
exposed PUs each, all free. -/
def c2_state : partitioner :=
  { base_state with
    mode := { allow_dynamic_pools := true, allow_oversubscription := false }
    numa_domains :=
      [[[⟨0, 1, 0⟩, ⟨1, 1, 0⟩], [⟨2, 1, 0⟩, ⟨3, 1, 0⟩]]] }

/-- The partitioner state `setup_pools` produces from `c2_state`. -/
def c2_result : partitioner :=
  { c2_state with
    initial_thread_pools :=
      [{ pool_name := "default"
         scheduling_policy_ := .unspecified
         num_threads := 4
         assigned_pus := [mk_mask 4 0, mk_mask 4 1, mk_mask 4 2, mk_mask 4 3]
         assigned_pu_nums :=
           [⟨0, true, false⟩, ⟨1, false, false⟩, ⟨2, false, false⟩, ⟨3, false, false⟩] }]
    num_threads_overall := 4
    numa_domains :=
      [[[⟨0, 1, 1⟩, ⟨1, 1, 1⟩], [⟨2, 1, 1⟩, ⟨3, 1, 1⟩]]] }

/-- A pool whose virtual core 0 sits on PU 5 non-exclusively and assigned,
virtual core 1 on PU 6 exclusively, virtual core 2 on PU 7 non-exclusively
but unassigned. -/
def c3_pool : init_pool_data :=
  { pool_name := "worker"
    scheduling_policy_ := .local_priority_fifo
    num_threads := 3
    assigned_pus := [mk_mask 8 5, mk_mask 8 6, mk_mask 8 7]
    assigned_pu_nums := [⟨5, false, true⟩, ⟨6, true, false⟩, ⟨7, false, false⟩] }

/-- A dynamic-pools partitioner owning `c3_pool` on an 8-PU machine. -/
def c3_state : partitioner :=
  { base_state with
    mode := { allow_dynamic_pools := true, allow_oversubscription := false }
    topo := { hc := 8, num_core_pus := fun _ => 1 }
    initial_thread_pools := [init_pool_data.fresh "default" .unspecified, c3_pool] }

/-- A partitioner whose pools still hold the `unspecified` policy and whose
`hpx.scheduler` entry reads `static`. -/
def c4_state : partitioner := { base_state with scheduler_entry := "static" }

/-- A free PU on core 2 of the test machine. -/
def c5_pu : pu := { id := 2, thread_occupancy := 1, thread_occupancy_count := 0 }

/-- A 3-PU machine (hardware concurrency not a power of two) with a cached
`first_core_ = 2` and a default pool holding PU 0. -/
def c6_state : partitioner :=
  { base_state with
    topo := { hc := 3, num_core_pus := fun _ => 1 }
    first_core := 2
    initial_thread_pools :=
      [{ pool_name := "default"
         scheduling_policy_ := .unspecified
         num_threads := 1
         assigned_pus := [mk_mask 3 0]
         assigned_pu_nums := [⟨0, true, false⟩] }] }

/-- The S6 scenario of the specification: default pool on PUs 0..3 of a
1-PU-per-core machine, cached `first_core_ = 0`. -/
def c6w_state : partitioner :=
  { base_state with
    first_core := 0
    initial_thread_pools :=
      [{ pool_name := "default"
         scheduling_policy_ := .unspecified
         num_threads := 4
         assigned_pus := [mk_mask 4 0, mk_mask 4 1, mk_mask 4 2, mk_mask 4 3]
         assigned_pu_nums :=
           [⟨0, true, false⟩, ⟨1, true, false⟩, ⟨2, true, false⟩, ⟨3, true, false⟩] }] }

/-- An uninitialized partitioner whose affinity data reports occupancy 2 for
every PU (`base_state`'s reports 1). -/
def c7_state_b : partitioner :=
  { base_state with
    affinity := { test_affinity with thread_occupancy_f := fun _ => 2 } }

/-- A partitioner owning a default pool with a single unassigned virtual
core on PU 0. -/
def c8_state : partitioner :=
  { base_state with
    initial_thread_pools :=
      [{ pool_name := "default"
         scheduling_policy_ := .unspecified
         num_threads := 1
         assigned_pus := [mk_mask 4 0]
         assigned_pu_nums := [⟨0, true, false⟩] }] }

/-- A partitioner owning the default pool and a pool named `io`. -/
def c9_state : partitioner :=
  { base_state with
    initial_thread_pools :=
      [init_pool_data.fresh "default" .unspecified,
       init_pool_data.fresh "io" .local_priority_fifo] }

/-! Auxiliary lemmas. -/

theorem list_set_getD_self {α : Type _} :
    ∀ (l : List α) (v : Nat) (d : α), v < l.length →
      l.set v (l.getD v d) = l := by
  intro l
  induction l with
  | nil => intro v d h; simp at h
  | cons a t ih =>
    intro v d h
    cases v with
    | zero => simp [List.getD]
    | succ n =>
      simp only [List.set, List.getD, List.get?_cons_succ]
      have := ih n d (by simpa using h)
      simp only [List.getD] at this
      rw [this]

theorem append_resource_pool_name (hc pid : Nat) (excl : Bool) (n : Nat)
    (d : init_pool_data) :
    (d.append_resource hc pid excl n).pool_name = d.pool_name := rfl

theorem update_pool_eq_apply_first (name : String)
    (f : init_pool_data → Except Err init_pool_data)
    (g : init_pool_data → init_pool_data) (hf : ∀ x, f x = .ok (g x)) :
    ∀ pools : List init_pool_data, (find_pool name pools).isSome →
      update_pool name f pools = .ok (apply_first name g pools) := by
  intro pools
  induction pools with
  | nil => intro h; simp [find_pool] at h
  | cons d rest ih =>
    intro h
    by_cases hd : d.pool_name == name
    · simp [update_pool, apply_first, hd, hf, Except.map]
    · have h2 : (find_pool name rest).isSome := by
        simpa [find_pool, List.find?_cons, hd] using h
      simp [update_pool, apply_first, hd, ih h2, Except.map]

theorem apply_first_id (name : String) (f : init_pool_data → init_pool_data) :
    ∀ (pools : List init_pool_data) (d : init_pool_data),
      find_pool name pools = some d → f d = d →
      apply_first name f pools = pools := by
  intro pools
  induction pools with
  | nil => intro d h; simp [find_pool] at h
  | cons d0 rest ih =>
    intro d h hfd
    by_cases hd : d0.pool_name == name
    · have : d = d0 := by
        simp [find_pool, List.find?_cons, hd] at h
        exact h.symm
      subst this
      simp [apply_first, hd, hfd]
    · have h2 : find_pool name rest = some d := by
        simpa [find_pool, List.find?_cons, hd] using h
      simp [apply_first, hd, ih d h2 hfd]

theorem find_pool_apply_first (name : String)
    (f : init_pool_data → init_pool_data)
    (hname : ∀ x, (f x).pool_name = x.pool_name) :
    ∀ pools : List init_pool_data,
      find_pool name (apply_first name f pools) = (find_pool name pools).map f := by
  intro pools
  induction pools with
  | nil => simp [find_pool, apply_first]
  | cons d rest ih =>
    by_cases hd : d.pool_name == name
    · have : (f d).pool_name == name := by rw [hname]; exact hd
      simp [apply_first, find_pool, List.find?_cons, hd, this]
    · have : ¬((f d).pool_name == name) := by rw [hname]; exact hd
      simp only [apply_first, hd, if_false, Bool.false_eq_true]
      simp only [find_pool, List.find?_cons] at ih ⊢
      simp only [hd, this, Bool.false_eq_true, if_false, cond_false]
      exact ih

theorem apply_first_comp (name : String)
    (f g : init_pool_data → init_pool_data)
    (hname : ∀ x, (f x).pool_name = x.pool_name) :
    ∀ pools : List init_pool_data,
      apply_first name g (apply_first name f pools) =
        apply_first name (fun x => g (f x)) pools := by
  intro pools
  induction pools with
  | nil => simp [apply_first]
  | cons d rest ih =>
    by_cases hd : d.pool_name == name
    · have : (f d).pool_name == name := by rw [hname]; exact hd
      simp [apply_first, hd, this]
    · have : ¬((f d).pool_name == name) := by rw [hname]; exact hd
      simp [apply_first, hd, this, ih]

theorem update_pool_err (name : String)
    (f : init_pool_data → Except Err init_pool_data) (e : Err)
    (hf : ∀ x, f x = .error e) :
    ∀ pools : List init_pool_data, (find_pool name pools).isSome →
      update_pool name f pools = .error e := by
  intro pools
  induction pools with
  | nil => intro h; simp [find_pool] at h
  | cons d rest ih =>
    intro h
    by_cases hd : d.pool_name == name
    · simp [update_pool, hd, hf, Except.map]
    · have h2 : (find_pool name rest).isSome := by
        simpa [find_pool, List.find?_cons, hd] using h
      simp [update_pool, hd, ih h2, Except.map]

theorem try_append_ok (s : partitioner) (name : String) (pid : Nat)
    (excl : Bool) (n : Nat)
    (hfind : (find_pool name s.initial_thread_pools).isSome)
    (hid : pid < s.topo.hc) :
    s.try_append name pid excl n = .ok { s with
      initial_thread_pools :=
        apply_first name (init_pool_data.append_resource s.topo.hc pid excl n)
          s.initial_thread_pools
      num_threads_overall := s.num_threads_overall + n } := by
  have hup := update_pool_eq_apply_first name
    (fun d => d.add_resource s.topo.hc pid excl n)
    (init_pool_data.append_resource s.topo.hc pid excl n)
    (fun x => by simp [init_pool_data.add_resource, Nat.not_le.mpr hid])
    s.initial_thread_pools hfind
  unfold partitioner.try_append
  rw [hup]

theorem add_resource_ok_state (s : partitioner) (p : pu) (name : String)
    (excl : Bool) (u : Unit) (s1 : partitioner) (p1 : pu)
    (hfind : (find_pool name s.initial_thread_pools).isSome)
    (h : s.add_resource p name excl 1 = (.ok u, s1, p1)) :
    p.id < s.topo.hc ∧
    s1 = { s with
      initial_thread_pools :=
        apply_first name (init_pool_data.append_resource s.topo.hc p.id excl 1)
          s.initial_thread_pools
      num_threads_overall := s.num_threads_overall + 1 } ∧
    p1 = { p with thread_occupancy_count := p.thread_occupancy_count + 1 } := by
  by_cases hid : p.id < s.topo.hc
  · refine ⟨hid, ?_⟩
    have htry := try_append_ok s name p.id excl 1 hfind hid
    unfold partitioner.add_resource at h
    rw [htry] at h
    repeat' split at h
    all_goals try simp at h
    all_goals aesop
  · exfalso
    have htry : s.try_append name p.id excl 1 = .error .bad_parameter := by
      have hup := update_pool_err name
        (fun d => d.add_resource s.topo.hc p.id excl 1) .bad_parameter
        (fun x => by simp [init_pool_data.add_resource, Nat.not_lt.mp hid])
        s.initial_thread_pools hfind
      unfold partitioner.try_append
      rw [hup]
    unfold partitioner.add_resource at h
    rw [htry] at h
    split at h
    · simp at h
    · split at h
      · simp at h
      · split at h
        · simp at h
        · simp at h

theorem bind_pool_pool_name (hc : Nat) (dyn : Bool) :
    ∀ (pus : List pu) (first : Bool) (d : init_pool_data),
      (bind_pool hc dyn first pus d).pool_name = d.pool_name := by
  intro pus
  induction pus with
  | nil => intro first d; rfl
  | cons p rest ih =>
    intro first d
    by_cases hz : (p.thread_occupancy_count == 0) = true
    · simp [bind_pool, hz, ih, append_resource_pool_name]
    · simp [bind_pool, hz, ih]

theorem bind_pool_tuples (hc : Nat) (dyn : Bool) :
    ∀ (pus : List pu) (first : Bool) (d : init_pool_data),
      (bind_pool hc dyn first pus d).assigned_pu_nums =
        d.assigned_pu_nums ++ bound_tuples dyn first pus := by
  intro pus
  induction pus with
  | nil => intro first d; simp [bind_pool, bound_tuples]
  | cons p rest ih =>
    intro first d
    by_cases hz : (p.thread_occupancy_count == 0) = true
    · simp [bind_pool, bound_tuples, hz, ih, init_pool_data.append_resource]
    · simp [bind_pool, bound_tuples, hz, ih]

theorem bound_tuples_first_false (dyn : Bool) :
    ∀ pus : List pu,
      bound_tuples dyn false pus =
        (pus.filter (fun q => q.thread_occupancy_count == 0)).map
          (fun q => ⟨q.id, !dyn, false⟩) := by
  intro pus
  induction pus with
  | nil => rfl
  | cons p rest ih =>
    by_cases hz : (p.thread_occupancy_count == 0) = true
    · simp [bound_tuples, List.filter_cons, hz, ih]
    · simp [bound_tuples, List.filter_cons, hz, ih]

theorem bound_tuples_first_true (dyn : Bool) :
    ∀ pus : List pu,
      bound_tuples dyn true pus =
        match pus.filter (fun q => q.thread_occupancy_count == 0) with
        | [] => []
        | p :: ps => ⟨p.id, true, false⟩ :: ps.map (fun q => ⟨q.id, !dyn, false⟩) := by
  intro pus
  induction pus with
  | nil => rfl
  | cons p rest ih =>
    by_cases hz : (p.thread_occupancy_count == 0) = true
    · simp [bound_tuples, List.filter_cons, hz, bound_tuples_first_false]
    · simp [bound_tuples, List.filter_cons, hz, ih]

theorem setup_pu_loop_spec :
    ∀ (pus : List pu) (s : partitioner) (first : Bool) (d0 : init_pool_data)
      (rest : List init_pool_data) (out : partitioner × List pu × Bool),
      s.initial_thread_pools = d0 :: rest →
      d0.pool_name = s.default_pool_name →
      s.setup_pu_loop first pus = .ok out →
      out.1.initial_thread_pools =
        bind_pool s.topo.hc s.mode.allow_dynamic_pools first pus d0 :: rest ∧
      out.1.default_pool_name = s.default_pool_name ∧
      out.1.mode = s.mode ∧ out.1.topo = s.topo ∧
      out.2.2 = (first && !(pus.any (fun q => q.thread_occupancy_count == 0))) := by
  intro pus
  induction pus with
  | nil =>
    intro s first d0 rest out hpools hname h
    simp only [partitioner.setup_pu_loop, Except.ok.injEq] at h
    subst h
    simp [bind_pool, hpools]
  | cons p rest' ih =>
    intro s first d0 rest out hpools hname h
    unfold partitioner.setup_pu_loop at h
    by_cases hz : (p.thread_occupancy_count == 0) = true
    · rw [if_pos hz] at h
      rcases hres : s.add_resource p s.default_pool_name
          (first || !s.mode.allow_dynamic_pools) 1 with ⟨r, s1, p1⟩
      rw [hres] at h
      cases r with
      | error e => simp at h
      | ok u =>
        dsimp only at h
        have hfind : (find_pool s.default_pool_name s.initial_thread_pools).isSome := by
          rw [hpools]
          simp [find_pool, List.find?_cons, hname]
        obtain ⟨hid, hs1, hp1⟩ := add_resource_ok_state s p _ _ u s1 p1 hfind hres
        have hs1pools : s1.initial_thread_pools =
            (d0.append_resource s.topo.hc p.id (first || !s.mode.allow_dynamic_pools) 1)
              :: rest := by
          rw [hs1, hpools]
          simp [apply_first, hname]
        rcases hrec : s1.setup_pu_loop false rest' with e2 | out2
        · rw [hrec] at h; simp at h
        · rw [hrec] at h
          simp only [Except.ok.injEq] at h
          have hdef1 : s1.default_pool_name = s.default_pool_name := by rw [hs1]
          have IH := ih s1 false _ rest out2 hs1pools
            (by rw [append_resource_pool_name, hdef1]; exact hname) hrec
          have hmode1 : s1.mode = s.mode := by rw [hs1]
          have htopo1 : s1.topo = s.topo := by rw [hs1]
          rcases out2 with ⟨s2, ps, f2⟩
          subst h
          refine ⟨?_, ?_, ?_, ?_, ?_⟩
          · rw [IH.1, hmode1, htopo1]
            simp [bind_pool, hz]
          · rw [IH.2.1, hdef1]
          · rw [IH.2.2.1, hmode1]
          · rw [IH.2.2.2.1, htopo1]
          · have hthis := IH.2.2.2.2
            simp only [Bool.false_and] at hthis
            simp [hz, hthis]
    · rw [if_neg hz] at h
      rcases hrec : s.setup_pu_loop first rest' with e2 | out2
      · rw [hrec] at h; simp at h
      · rw [hrec] at h
        simp only [Except.ok.injEq] at h
        have IH := ih s first d0 rest out2 hpools hname hrec
        rcases out2 with ⟨s2, ps, f2⟩
        subst h
        refine ⟨?_, IH.2.1, IH.2.2.1, IH.2.2.2.1, ?_⟩
        · rw [IH.1]
          simp [bind_pool, hz]
        · have hthis := IH.2.2.2.2
          simp only at hthis
          simp [hz, hthis]

theorem bind_pool_append (hc : Nat) (dyn : Bool) :
    ∀ (xs ys : List pu) (first : Bool) (d : init_pool_data),
      bind_pool hc dyn first (xs ++ ys) d =
        bind_pool hc dyn (first && !(xs.any (fun q => q.thread_occupancy_count == 0)))
          ys (bind_pool hc dyn first xs d) := by
  intro xs
  induction xs with
  | nil => intro ys first d; simp [bind_pool]
  | cons p rest ih =>
    intro ys first d
    by_cases hz : (p.thread_occupancy_count == 0) = true
    · simp [bind_pool, hz, ih, List.any_cons]
    · simp [bind_pool, hz, ih, List.any_cons]

/-- The PUs of the topology mirror in iteration order: domain 0 first, its
cores in index order, each core's PUs in index order. -/
def mirror_pus (doms : List (List (List pu))) : List pu :=
  (doms.map List.flatten).flatten

theorem setup_core_loop_spec :
    ∀ (cs : List (List pu)) (s : partitioner) (first : Bool) (d0 : init_pool_data)
      (rest : List init_pool_data) (out : partitioner × List (List pu) × Bool),
      s.initial_thread_pools = d0 :: rest →
      d0.pool_name = s.default_pool_name →
      s.setup_core_loop first cs = .ok out →
      out.1.initial_thread_pools =
        bind_pool s.topo.hc s.mode.allow_dynamic_pools first cs.flatten d0 :: rest ∧
      out.1.default_pool_name = s.default_pool_name ∧
      out.1.mode = s.mode ∧ out.1.topo = s.topo ∧
      out.2.2 = (first && !(cs.flatten.any (fun q => q.thread_occupancy_count == 0))) := by
  intro cs
  induction cs with
  | nil =>
    intro s first d0 rest out hpools hname h
    simp only [partitioner.setup_core_loop, Except.ok.injEq] at h
    subst h
    simp [bind_pool, hpools]
  | cons c rest' ih =>
    intro s first d0 rest out hpools hname h
    unfold partitioner.setup_core_loop at h
    rcases h1 : s.setup_pu_loop first c with e1 | out1
    · rw [h1] at h; simp at h
    · rw [h1] at h
      rcases out1 with ⟨s1, c1, f1⟩
      dsimp only at h
      rcases hrec : s1.setup_core_loop f1 rest' with e2 | out2
      · rw [hrec] at h; simp at h
      · rw [hrec] at h
        simp only [Except.ok.injEq] at h
        obtain ⟨P1, Pdef, Pmode, Ptopo, Pflag⟩ :=
          setup_pu_loop_spec c s first d0 rest (s1, c1, f1) hpools hname h1
        simp only at P1 Pdef Pmode Ptopo Pflag
        have hname1 :
            (bind_pool s.topo.hc s.mode.allow_dynamic_pools first c d0).pool_name =
              s1.default_pool_name := by
          rw [bind_pool_pool_name, Pdef]; exact hname
        obtain ⟨Q1, Qdef, Qmode, Qtopo, Qflag⟩ :=
          ih s1 f1 _ rest out2 P1 hname1 hrec
        rcases out2 with ⟨s2, cs2, f2⟩
        subst h
        simp only at Q1 Qdef Qmode Qtopo Qflag
        refine ⟨?_, ?_, ?_, ?_, ?_⟩
        · rw [Q1, Pmode, Ptopo, Pflag]
          rw [List.flatten_cons, bind_pool_append]
        · rw [Qdef, Pdef]
        · rw [Qmode, Pmode]
        · rw [Qtopo, Ptopo]
        · rw [Qflag, Pflag]
          simp [Bool.and_assoc]

theorem setup_domain_loop_spec :
    ∀ (ds : List (List (List pu))) (s : partitioner) (first : Bool)
      (d0 : init_pool_data) (rest : List init_pool_data)
      (out : partitioner × List (List (List pu)) × Bool),
      s.initial_thread_pools = d0 :: rest →
      d0.pool_name = s.default_pool_name →
      s.setup_domain_loop first ds = .ok out →
      out.1.initial_thread_pools =
        bind_pool s.topo.hc s.mode.allow_dynamic_pools first (mirror_pus ds) d0 :: rest ∧
      out.1.default_pool_name = s.default_pool_name ∧
      out.1.mode = s.mode ∧ out.1.topo = s.topo ∧
      out.2.2 = (first && !((mirror_pus ds).any (fun q => q.thread_occupancy_count == 0))) := by
  intro ds
  induction ds with
  | nil =>
    intro s first d0 rest out hpools hname h
    simp only [partitioner.setup_domain_loop, Except.ok.injEq] at h
    subst h
    simp [bind_pool, mirror_pus, hpools]
  | cons c rest' ih =>
    intro s first d0 rest out hpools hname h
    unfold partitioner.setup_domain_loop at h
    rcases h1 : s.setup_core_loop first c with e1 | out1
    · rw [h1] at h; simp at h
    · rw [h1] at h
      rcases out1 with ⟨s1, c1, f1⟩
      dsimp only at h
      rcases hrec : s1.setup_domain_loop f1 rest' with e2 | out2
      · rw [hrec] at h; simp at h
      · rw [hrec] at h
        simp only [Except.ok.injEq] at h
        obtain ⟨P1, Pdef, Pmode, Ptopo, Pflag⟩ :=
          setup_core_loop_spec c s first d0 rest (s1, c1, f1) hpools hname h1
        simp only at P1 Pdef Pmode Ptopo Pflag
        have hname1 :
            (bind_pool s.topo.hc s.mode.allow_dynamic_pools first c.flatten d0).pool_name =
              s1.default_pool_name := by
          rw [bind_pool_pool_name, Pdef]; exact hname
        obtain ⟨Q1, Qdef, Qmode, Qtopo, Qflag⟩ :=
          ih s1 f1 _ rest out2 P1 hname1 hrec
        rcases out2 with ⟨s2, cs2, f2⟩
        subst h
        simp only at Q1 Qdef Qmode Qtopo Qflag
        refine ⟨?_, ?_, ?_, ?_, ?_⟩
        · rw [Q1, Pmode, Ptopo, Pflag]
          have : mirror_pus (c :: rest') = c.flatten ++ mirror_pus rest' := by
            simp [mirror_pus]
          rw [this, bind_pool_append]
        · rw [Qdef, Pdef]
        · rw [Qmode, Pmode]
        · rw [Qtopo, Ptopo]
        · rw [Qflag, Pflag]
          have : mirror_pus (c :: rest') = c.flatten ++ mirror_pus rest' := by
            simp [mirror_pus]
          rw [this]
          simp [Bool.and_assoc]

/-! Claim theorems. -/

/-- C10: the claim that the guarding assertion
`HPX_ASSERT(virt_core <= assigned_pu_nums_.size())` of
`init_pool_data::assign_pu` / `unassign_pu` implies the subsequent access
`assigned_pu_nums_[virt_core]` is in bounds is false: at
`virt_core = assigned_pu_nums_.size()` (here the empty pool at
`virt_core = 0`) the assertion precondition holds while the access is out of
bounds.  The assertion is off by one; the guarded access requires strict
inequality. -/
theorem c10_assert_admits_out_of_bounds :
    assign_pu_assert_pre (init_pool_data.fresh "default" .unspecified) 0 ∧
    ¬ assign_pu_access_in_bounds (init_pool_data.fresh "default" .unspecified) 0 ∧
    (init_pool_data.fresh "default" .unspecified).assigned_pu_nums[0]? = none := by
  decide

/-- C7 counterexample: two uninitialized partitioners that receive the same
argument `pu = 0` but hold different affinity data disagree on
`get_thread_occupancy`, so before initialization its result is not derived
solely from `pu`: the source's `get_thread_occupancy`
(detail_partitioner.cpp:946-949) has no `is_initialized_` branch and always
consults the affinity data. -/
theorem c7_occupancy_consults_affinity :
    base_state.is_initialized = false ∧
    c7_state_b.is_initialized = false ∧
    base_state.get_thread_occupancy 0 = 1 ∧
    c7_state_b.get_thread_occupancy 0 = 2 := by
  decide

/-- C7 (amended): before initialization `get_pu_num`, `get_pu_mask` and
`get_used_pus_mask` return the identity / one-hot values derived solely from
their argument, and after initialization they defer to the affinity data;
`get_thread_occupancy` defers to the affinity data in both phases. -/
theorem c7_amended_query_phases (s : partitioner) (w q : Nat) :
    (s.is_initialized = false →
      s.get_pu_num w = w ∧
      s.get_pu_mask w = mk_mask s.topo.hc w ∧
      s.get_used_pus_mask q = mk_mask s.topo.hc q) ∧
    (s.is_initialized = true →
      s.get_pu_num w = s.affinity.pu_num_f w ∧
      s.get_pu_mask w = s.affinity.pu_mask_f w ∧
      s.get_used_pus_mask q = s.affinity.used_pus_mask_f q) ∧
    s.get_thread_occupancy q = s.affinity.thread_occupancy_f q := by
  unfold partitioner.get_pu_num partitioner.get_pu_mask
    partitioner.get_used_pus_mask partitioner.get_thread_occupancy
  rcases h : s.is_initialized <;> simp [h]

/-- C7 witness: the amended statement evaluated on the uninitialized
`base_state`. -/
theorem c7_amended_witness :
    base_state.get_pu_num 1 = 1 ∧
    base_state.get_pu_mask 1 = mk_mask base_state.topo.hc 1 ∧
    base_state.get_used_pus_mask 0 = mk_mask base_state.topo.hc 0 ∧
    base_state.get_thread_occupancy 0 = base_state.affinity.thread_occupancy_f 0 :=
  ⟨((c7_amended_query_phases base_state 1 0).1 rfl).1,
   ((c7_amended_query_phases base_state 1 0).1 rfl).2.1,
   ((c7_amended_query_phases base_state 1 0).1 rfl).2.2,
   (c7_amended_query_phases base_state 1 0).2.2⟩

/-- C9: `get_pool_index "default"` returns 0 in every partitioner state (so
every operation preserves it); `create_thread_pool` invoked with the default
pool's (non-empty) name replaces the index-0 entry in place, preserving the
pool vector's length; creating a duplicate non-default name throws
`bad_parameter` (the source throws before modifying the vector). -/
theorem c9_default_pool_index_invariant :
    (∀ s : partitioner, s.get_pool_index "default" = .ok 0) ∧
    (∀ (s : partitioner) (sched : scheduling_policy),
      s.default_pool_name ≠ "" →
      s.create_thread_pool s.default_pool_name sched =
        .ok { s with initial_thread_pools := s.initial_thread_pools.set 0 (init_pool_data.fresh s.default_pool_name sched) } ∧
      (s.initial_thread_pools.set 0
        (init_pool_data.fresh s.default_pool_name sched)).length =
        s.initial_thread_pools.length) ∧
    (∀ (s : partitioner) (name : String) (sched : scheduling_policy),
      name ≠ "" → name ≠ s.default_pool_name →
      (s.initial_thread_pools.drop 1).any (fun d => d.pool_name == name) →
      s.create_thread_pool name sched = .error .bad_parameter) := by
  refine ⟨fun s => rfl, ?_, ?_⟩
  · intro s sched hne
    constructor
    · unfold partitioner.create_thread_pool
      rw [if_neg (by simpa using hne)]
      rw [if_pos (by simp)]
    · exact List.length_set _ _ _
  · intro s name sched h1 h2 hdup
    unfold partitioner.create_thread_pool
    rw [if_neg (by simpa using h1)]
    rw [if_neg (by simpa using h2)]
    rw [if_pos hdup]

/-- C9 witness: the invariant evaluated on a partitioner owning pools
`default` and `io`. -/
theorem c9_witness :
    c9_state.get_pool_index "default" = .ok 0 ∧
    c9_state.create_thread_pool "io" .local_ = .error .bad_parameter ∧
    c9_state.create_thread_pool "default" .local_ =
      .ok { c9_state with initial_thread_pools := c9_state.initial_thread_pools.set 0 (init_pool_data.fresh c9_state.default_pool_name .local_) } :=
  ⟨c9_default_pool_index_invariant.1 c9_state,
   c9_default_pool_index_invariant.2.2 c9_state "io" .local_
     (by decide) (by decide) (by decide),
   (c9_default_pool_index_invariant.2.1 c9_state .local_ (by decide)).1⟩

/-- C3 counterexample: `shrink_pool` hands `remove_callback` the loop index
(the virtual-core number pushed into `pu_nums_to_remove`,
detail_partitioner.cpp:1051), not the tuple's `pu_id`: on a pool whose only
non-exclusive assigned entry sits at virtual core 0 on PU 5, the single
callback invocation receives 0 while the claim prescribes the `pu_id` 5. -/
theorem c3_callback_gets_virtual_core :
    c3_state.shrink_pool "worker" = .ok ([0], 1) ∧
    (c3_pool.assigned_pu_nums.filter (fun t => !t.exclusive && t.assigned)).map
      (fun t => t.pu_id) = [5] ∧
    ([0] : List Nat) ≠ [5] := by
  decide

/-- C3 (amended): `shrink_pool` throws `bad_parameter` when dynamic pools
are off, and when every scanned entry of the named pool is exclusive; given
dynamic pools and some non-exclusive entry it returns the list of virtual
cores (in increasing scan order) whose entry is non-exclusive and currently
assigned — each passed to `remove_callback` once, with the callback
receiving the virtual-core index rather than the tuple's `pu_id` — together
with that list's length as the function's return value. -/
theorem c3_amended_shrink_pool (s : partitioner) (name : String)
    (d : init_pool_data)
    (hfind : find_pool name s.initial_thread_pools = some d) :
    (s.mode.allow_dynamic_pools = false →
      s.shrink_pool name = .error .bad_parameter) ∧
    (s.mode.allow_dynamic_pools = true →
      (∀ i, i < d.num_threads → d.pu_is_exclusive i = true) →
      s.shrink_pool name = .error .bad_parameter) ∧
    (s.mode.allow_dynamic_pools = true →
      (∃ i, i < d.num_threads ∧ d.pu_is_exclusive i = false) →
      ∃ l, s.shrink_pool name = .ok (l, l.length) ∧
        List.Sorted (· < ·) l ∧
        (∀ i, i ∈ l ↔ i < d.num_threads ∧ d.pu_is_exclusive i = false ∧
          d.pu_is_assigned i = true)) := by
  refine ⟨?_, ?_, ?_⟩
  · intro hdyn
    unfold partitioner.shrink_pool
    rw [if_pos (by simp [hdyn])]
  · intro hdyn hall
    unfold partitioner.shrink_pool
    rw [if_neg (by simp [hdyn])]
    rw [hfind]
    dsimp only
    rw [if_pos ?_]
    have : (List.range d.num_threads).any (fun i => !d.pu_is_exclusive i) = false := by
      rw [List.any_eq_false]
      intro i hi
      rw [List.mem_range] at hi
      simp [hall i hi]
    rw [this]
    rfl
  · intro hdyn hex
    refine ⟨(List.range d.num_threads).filter
      (fun i => !d.pu_is_exclusive i && d.pu_is_assigned i), ?_, ?_, ?_⟩
    · unfold partitioner.shrink_pool
      rw [if_neg (by simp [hdyn])]
      rw [hfind]
      dsimp only
      rw [if_neg ?_]
      obtain ⟨i, hi, hexi⟩ := hex
      have : (List.range d.num_threads).any (fun i => !d.pu_is_exclusive i) = true := by
        rw [List.any_eq_true]
        exact ⟨i, List.mem_range.mpr hi, by simp [hexi]⟩
      rw [this]
      simp
    · exact List.Pairwise.sublist (List.filter_sublist _) (List.pairwise_lt_range _)
    · intro i
      simp [List.mem_filter, List.mem_range]

/-- C3 witness: the amended statement evaluated on `c3_state`'s pool
`worker`, whose non-exclusive assigned entry is virtual core 0. -/
theorem c3_amended_witness :
    ∃ l, c3_state.shrink_pool "worker" = .ok (l, l.length) ∧
      List.Sorted (· < ·) l ∧
      (∀ i, i ∈ l ↔ i < c3_pool.num_threads ∧ c3_pool.pu_is_exclusive i = false ∧
        c3_pool.pu_is_assigned i = true) :=
  (c3_amended_shrink_pool c3_state "worker" c3_pool (by decide)).2.2
    (by decide) ⟨0, by decide, by decide⟩

/-- C1 counterexample: with oversubscription off and a free PU, when
`add_resource` throws the budget-overshoot `runtime` error the observable
partitioner state is NOT the pre-call state: the mutation
(detail_partitioner.cpp:739-741) precedes the check
(detail_partitioner.cpp:749), so the target pool's `num_threads_`, the
global `num_threads_overall` and the PU's occupancy count keep their
incremented values.  Only the lock is released before the throw. -/
theorem c1_overshoot_not_atomic :
    (c1_state.add_resource c1_pu "default" true 1).1 = .error .runtime ∧
    (c1_state.add_resource c1_pu "default" true 1).2.1.num_threads_overall = 2 ∧
    c1_state.num_threads_overall = 1 ∧
    ((c1_state.add_resource c1_pu "default" true 1).2.1.initial_thread_pools.map
      (fun d => d.num_threads)) = [1] ∧
    (c1_state.initial_thread_pools.map (fun d => d.num_threads)) = [0] ∧
    ((c1_state.add_resource c1_pu "default" true 1).2.1.initial_thread_pools.map
      (fun d => d.assigned_pu_nums)) = [[⟨0, true, false⟩]] ∧
    (c1_state.initial_thread_pools.map (fun d => d.assigned_pu_nums)) = [[]] ∧
    (c1_state.add_resource c1_pu "default" true 1).2.2.thread_occupancy_count = 1 ∧
    c1_pu.thread_occupancy_count = 0 := by
  decide

/-- C1 (amended): on the budget-overshoot path, `add_resource` throws the
`runtime` error and leaves behind exactly the mutated state: the target pool
extended by the `num_threads` new entries, `num_threads_overall` incremented
by `num_threads`, and the PU's occupancy count incremented — the state is
not rolled back before the throw. -/
theorem c1_amended_overshoot_state (s : partitioner) (p : pu) (name : String)
    (excl : Bool) (n : Nat)
    (hguard : (!excl && !s.mode.allow_dynamic_pools) = false)
    (hover : s.mode.allow_oversubscription = false)
    (hcnt : p.thread_occupancy_count = 0)
    (hfind : (find_pool name s.initial_thread_pools).isSome)
    (hid : p.id < s.topo.hc)
    (hbudget : s.os_threads < s.num_threads_overall + n) :
    s.add_resource p name excl n =
      (.error .runtime,
       { s with
         initial_thread_pools := apply_first name
           (init_pool_data.append_resource s.topo.hc p.id excl n)
           s.initial_thread_pools
         num_threads_overall := s.num_threads_overall + n },
       { p with thread_occupancy_count := p.thread_occupancy_count + 1 }) := by
  unfold partitioner.add_resource
  rw [try_append_ok s name p.id excl n hfind hid]
  rw [hguard, hover, hcnt]
  simp [hbudget]

/-- C1 witness: the amended statement evaluated on `c1_state` (budget
already exhausted) and the free PU 0. -/
theorem c1_amended_witness :
    c1_state.add_resource c1_pu "default" true 1 =
      (.error .runtime,
       { c1_state with
         initial_thread_pools := apply_first "default"
           (init_pool_data.append_resource c1_state.topo.hc c1_pu.id true 1)
           c1_state.initial_thread_pools
         num_threads_overall := c1_state.num_threads_overall + 1 },
       { c1_pu with thread_occupancy_count := c1_pu.thread_occupancy_count + 1 }) :=
  c1_amended_overshoot_state c1_state c1_pu "default" true 1
    (by decide) (by decide) (by decide) (by decide) (by decide) (by decide)

/-- C5: with oversubscription disabled, an existing pool, an in-range PU
and the thread budget not yet exhausted, `add_resource(p, pool)` (defaults
`exclusive = true`, `num_threads = 1`) throws the `runtime` error exactly
when `p.thread_occupancy_count > 0`; when the count is zero it succeeds,
appending one one-hot mask and one `(pu_id, exclusive, assigned = false)`
tuple to the pool and incrementing the PU's occupancy count and the global
`num_threads_overall`. -/
theorem c5_add_resource_occupancy (s : partitioner) (p : pu) (name : String)
    (hover : s.mode.allow_oversubscription = false)
    (hfind : (find_pool name s.initial_thread_pools).isSome)
    (hid : p.id < s.topo.hc)
    (hbudget : s.num_threads_overall + 1 ≤ s.os_threads) :
    ((s.add_resource p name true 1).1 = .error .runtime ↔
      0 < p.thread_occupancy_count) ∧
    (p.thread_occupancy_count = 0 →
      s.add_resource p name true 1 =
        (.ok (),
         { s with
           initial_thread_pools := apply_first name
             (init_pool_data.append_resource s.topo.hc p.id true 1)
             s.initial_thread_pools
           num_threads_overall := s.num_threads_overall + 1 },
         { p with thread_occupancy_count := p.thread_occupancy_count + 1 })) ∧
    (∀ d : init_pool_data,
      d.append_resource s.topo.hc p.id true 1 =
        { d with
          num_threads := d.num_threads + 1
          assigned_pus := d.assigned_pus ++ [mk_mask s.topo.hc p.id]
          assigned_pu_nums := d.assigned_pu_nums ++ [⟨p.id, true, false⟩] }) := by
  have hnb : ¬ s.os_threads < s.num_threads_overall + 1 := Nat.not_lt.mpr hbudget
  by_cases hcz : p.thread_occupancy_count = 0
  · have hres : s.add_resource p name true 1 =
        (.ok (),
         { s with
           initial_thread_pools := apply_first name
             (init_pool_data.append_resource s.topo.hc p.id true 1)
             s.initial_thread_pools
           num_threads_overall := s.num_threads_overall + 1 },
         { p with thread_occupancy_count := p.thread_occupancy_count + 1 }) := by
      unfold partitioner.add_resource
      rw [try_append_ok s name p.id true 1 hfind hid]
      rw [hover, hcz]
      simp [hnb]
    refine ⟨?_, fun _ => hres, ?_⟩
    · rw [hres]
      simp [hcz]
    · intro d
      simp [init_pool_data.append_resource]
  · have hres : s.add_resource p name true 1 = (.error .runtime, s, p) := by
      unfold partitioner.add_resource
      rw [hover]
      simp only [Bool.not_true, Bool.false_and, Bool.false_eq_true, if_false]
      rw [if_neg (by simpa using hcz)]
    refine ⟨?_, fun hc0 => absurd hc0 hcz, ?_⟩
    · rw [hres]
      simp [Nat.pos_of_ne_zero hcz]
    · intro d
      simp [init_pool_data.append_resource]

/-- C5 witness: the statement evaluated on `base_state` (budget 4, no
threads yet) and the free PU 2. -/
theorem c5_witness :
    ((base_state.add_resource c5_pu "default" true 1).1 = .error .runtime ↔
      0 < c5_pu.thread_occupancy_count) ∧
    (c5_pu.thread_occupancy_count = 0 →
      base_state.add_resource c5_pu "default" true 1 =
        (.ok (),
         { base_state with
           initial_thread_pools := apply_first "default"
             (init_pool_data.append_resource base_state.topo.hc c5_pu.id true 1)
             base_state.initial_thread_pools
           num_threads_overall := base_state.num_threads_overall + 1 },
         { c5_pu with thread_occupancy_count := c5_pu.thread_occupancy_count + 1 })) :=
  ⟨(c5_add_resource_occupancy base_state c5_pu "default"
      (by decide) (by decide) (by decide) (by decide)).1,
   (c5_add_resource_occupancy base_state c5_pu "default"
      (by decide) (by decide) (by decide) (by decide)).2.1⟩

/-- C4: `setup_schedulers` resolves the `hpx.scheduler` string by testing,
in the fixed scan order of `known_scheduler_names`, whether the user string
is a prefix of the known name, taking the first match; `"static"` resolves
to `static_`, `"local-p"` to `local_priority_fifo`, and the configured
default `"local-priority-fifo"` to `local_priority_fifo`; a string that is a
prefix of no known name yields `command_line_error`; on success every pool
whose policy was `unspecified` is set to the resolved policy. -/
theorem c4_scheduler_resolution :
    (∀ u : String, resolve_scheduler u =
      match known_scheduler_names.find? (fun kv => find_at_zero kv.1 u) with
      | some kv => .ok kv.2
      | none => .error .command_line_error) ∧
    resolve_scheduler "static" = .ok .static_ ∧
    resolve_scheduler "local-p" = .ok .local_priority_fifo ∧
    resolve_scheduler "local-priority-fifo" = .ok .local_priority_fifo ∧
    resolve_scheduler "banana" = .error .command_line_error ∧
    (∀ s s2 : partitioner, s.setup_schedulers = .ok s2 →
      ∃ pol, resolve_scheduler s.scheduler_entry = .ok pol ∧
        s2.initial_thread_pools = s.initial_thread_pools.map (fun d =>
          if d.scheduling_policy_ == scheduling_policy.unspecified then
            { d with scheduling_policy_ := pol }
          else d)) := by
  refine ⟨?_, by decide, by decide, by decide, by decide, ?_⟩
  · intro u
    unfold resolve_scheduler known_scheduler_names
    simp only [List.find?_cons]
    by_cases h1 : find_at_zero "local" u = true
    · simp [h1]
    · rw [if_neg h1]
      simp only [Bool.not_eq_true] at h1
      rw [h1]
      by_cases h2 : find_at_zero "local-priority-fifo" u = true
      · simp [h2]
      · rw [if_neg h2]
        simp only [Bool.not_eq_true] at h2
        rw [h2]
        by_cases h3 : find_at_zero "local-priority-lifo" u = true
        · simp [h3]
        · rw [if_neg h3]
          simp only [Bool.not_eq_true] at h3
          rw [h3]
          by_cases h4 : find_at_zero "local-workrequesting-fifo" u = true
          · simp [h4]
          · rw [if_neg h4]
            simp only [Bool.not_eq_true] at h4
            rw [h4]
            by_cases h5 : find_at_zero "local-workrequesting-lifo" u = true
            · simp [h5]
            · rw [if_neg h5]
              simp only [Bool.not_eq_true] at h5
              rw [h5]
              by_cases h6 : find_at_zero "local-workrequesting-mc" u = true
              · simp [h6]
              · rw [if_neg h6]
                simp only [Bool.not_eq_true] at h6
                rw [h6]
                by_cases h7 : find_at_zero "static" u = true
                · simp [h7]
                · rw [if_neg h7]
                  simp only [Bool.not_eq_true] at h7
                  rw [h7]
                  by_cases h8 : find_at_zero "static-priority" u = true
                  · simp [h8]
                  · rw [if_neg h8]
                    simp only [Bool.not_eq_true] at h8
                    rw [h8]
                    by_cases h9 : find_at_zero "abp-priority-fifo" u = true
                    · simp [h9]
                    · rw [if_neg h9]
                      simp only [Bool.not_eq_true] at h9
                      rw [h9]
                      by_cases h10 : find_at_zero "abp-priority-lifo" u = true
                      · simp [h10]
                      · rw [if_neg h10]
                        simp only [Bool.not_eq_true] at h10
                        rw [h10]
                        by_cases h11 : find_at_zero "shared-priority" u = true
                        · simp [h11]
                        · rw [if_neg h11]
                          simp only [Bool.not_eq_true] at h11
                          rw [h11]
                          rfl
  · intro s s2 h
    unfold partitioner.setup_schedulers at h
    rcases hres : resolve_scheduler s.scheduler_entry with e | pol
    · rw [hres] at h; simp at h
    · rw [hres] at h
      dsimp only at h
      simp only [Except.ok.injEq] at h
      exact ⟨pol, rfl, by rw [← h]⟩

/-- C4 witness: `setup_schedulers` on a partitioner whose `hpx.scheduler`
entry reads `static` writes `static_` into its `unspecified` pool. -/
theorem c4_witness :
    ∃ pol, resolve_scheduler c4_state.scheduler_entry = .ok pol ∧
      ({ c4_state with initial_thread_pools := [init_pool_data.fresh "default" .static_] } : partitioner).initial_thread_pools =
        c4_state.initial_thread_pools.map (fun d =>
          if d.scheduling_policy_ == scheduling_policy.unspecified then
            { d with scheduling_policy_ := pol }
          else d) :=
  c4_scheduler_resolution.2.2.2.2.2 c4_state
    { c4_state with initial_thread_pools := [init_pool_data.fresh "default" .static_] }
    rfl

/-- C8: for a pool `p` and virtual core `v < num_threads(p)` whose tuple is
unassigned, `assign_pu(p, v)` followed by `unassign_pu(p, v)` (with the
try-lock succeeding) restores the whole partitioner state: the tuple's
`assigned` field returns to `false` and `pu_id`, `exclusive` and all other
state are untouched. -/
theorem c8_assign_unassign_roundtrip (s : partitioner) (name : String)
    (v : Nat) (d : init_pool_data)
    (hfind : find_pool name s.initial_thread_pools = some d)
    (hv : v < d.assigned_pu_nums.length)
    (hassigned : (d.assigned_pu_nums.getD v ⟨0, false, false⟩).assigned = false) :
    (s.assign_pu name v).bind (fun s1 => s1.unassign_pu name v true) = .ok s := by
  have hsome : (find_pool name s.initial_thread_pools).isSome := by
    rw [hfind]; rfl
  have hname_assign : ∀ x : init_pool_data, (x.assign_pu v).pool_name = x.pool_name :=
    fun x => rfl
  have hroundtrip : (d.assign_pu v).unassign_pu v = d := by
    have h1 : ((d.assigned_pu_nums.set v
        { d.assigned_pu_nums.getD v ⟨0, false, false⟩ with assigned := true }).getD v
          ⟨0, false, false⟩) =
        { d.assigned_pu_nums.getD v ⟨0, false, false⟩ with assigned := true } := by
      rw [List.getD_eq_getElem?_getD, List.getElem?_set_self hv, Option.getD_some]
    simp only [init_pool_data.assign_pu, init_pool_data.unassign_pu]
    rw [h1, List.set_set]
    rcases horig : d.assigned_pu_nums.getD v ⟨0, false, false⟩ with ⟨pid, ex, asg⟩
    have hasg : asg = false := by rw [horig] at hassigned; exact hassigned
    subst hasg
    have h2 : d.assigned_pu_nums.set v ⟨pid, ex, false⟩ = d.assigned_pu_nums := by
      conv_lhs => rw [← horig]
      exact list_set_getD_self d.assigned_pu_nums v ⟨0, false, false⟩ hv
    rw [h2]
  have hup1 := update_pool_eq_apply_first name
    (fun x => .ok (x.assign_pu v)) (fun x => x.assign_pu v) (fun x => rfl)
    s.initial_thread_pools hsome
  unfold partitioner.assign_pu
  rw [hup1]
  dsimp only
  show partitioner.unassign_pu _ name v true = .ok s
  unfold partitioner.unassign_pu
  rw [if_pos rfl]
  have hfind2 : find_pool name
      (apply_first name (fun x => x.assign_pu v) s.initial_thread_pools) =
      some (d.assign_pu v) := by
    rw [find_pool_apply_first name _ hname_assign, hfind]
    rfl
  have hup2 := update_pool_eq_apply_first name
    (fun x => .ok (x.unassign_pu v)) (fun x => x.unassign_pu v) (fun x => rfl)
    (apply_first name (fun x => x.assign_pu v) s.initial_thread_pools)
    (by rw [hfind2]; rfl)
  rw [hup2]
  dsimp only
  rw [apply_first_comp name _ _ hname_assign]
  rw [apply_first_id name _ s.initial_thread_pools d hfind hroundtrip]

/-- C8 witness: the round trip evaluated on `c8_state`'s default pool at
virtual core 0. -/
theorem c8_witness :
    (c8_state.assign_pu "default" 0).bind
      (fun s1 => s1.unassign_pu "default" 0 true) = .ok c8_state :=
  c8_assign_unassign_roundtrip c8_state "default" 0
    { pool_name := "default"
      scheduling_policy_ := .unspecified
      num_threads := 1
      assigned_pus := [mk_mask 4 0]
      assigned_pu_nums := [⟨0, true, false⟩] }
    (by decide) (by decide) (by decide)

/-- C2: a successful `setup_pools` walks the topology mirror in iteration
order (domain 0 first, cores in index order, exposed PUs in index order) and
binds every PU whose `thread_occupancy_count` is 0 to the default pool: the
first such PU exclusively even when `allow_dynamic_pools` is set, and every
subsequent one non-exclusively exactly when `allow_dynamic_pools` is set
(else exclusively); the other pools are untouched. -/
theorem c2_setup_pools_binding (s s2 : partitioner) (d0 : init_pool_data)
    (rest : List init_pool_data)
    (hpools : s.initial_thread_pools = d0 :: rest)
    (hname : d0.pool_name = s.default_pool_name)
    (hok : s.setup_pools = .ok s2) :
    ∃ d0', s2.initial_thread_pools = d0' :: rest ∧
      d0'.assigned_pu_nums = d0.assigned_pu_nums ++
        (match (mirror_pus s.numa_domains).filter
            (fun q => q.thread_occupancy_count == 0) with
         | [] => []
         | p :: ps => ⟨p.id, true, false⟩ ::
             ps.map (fun q => (⟨q.id, !s.mode.allow_dynamic_pools, false⟩ : PuTuple))) := by
  unfold partitioner.setup_pools at hok
  rcases hdl : s.setup_domain_loop true s.numa_domains with e | out
  · rw [hdl] at hok; simp at hok
  · rw [hdl] at hok
    rcases out with ⟨s1, ds, f⟩
    dsimp only at hok
    obtain ⟨P1, Pdef, Pmode, Ptopo, Pflag⟩ :=
      setup_domain_loop_spec s.numa_domains s true d0 rest (s1, ds, f) hpools hname hdl
    simp only at P1 Pdef Pmode Ptopo Pflag
    have hfindP : find_pool s1.default_pool_name s1.initial_thread_pools =
        some (bind_pool s.topo.hc s.mode.allow_dynamic_pools true
          (mirror_pus s.numa_domains) d0) := by
      rw [P1, Pdef]
      simp [find_pool, List.find?_cons, bind_pool_pool_name, hname]
    rw [hfindP] at hok
    dsimp only at hok
    split at hok
    · simp at hok
    · split at hok
      · simp at hok
      · simp only [Except.ok.injEq] at hok
        refine ⟨bind_pool s.topo.hc s.mode.allow_dynamic_pools true
          (mirror_pus s.numa_domains) d0, ?_, ?_⟩
        · rw [← hok]
          exact P1
        · rw [bind_pool_tuples, bound_tuples_first_true]

/-- C2 witness: `setup_pools` on `c2_state` (dynamic pools on, four free
PUs) binds PU 0 exclusively and PUs 1..3 non-exclusively to the default
pool. -/
theorem c2_witness :
    c2_state.setup_pools = .ok c2_result ∧
    ∃ d0', c2_result.initial_thread_pools = d0' :: [] ∧
      d0'.assigned_pu_nums =
        (init_pool_data.fresh "default" .unspecified).assigned_pu_nums ++
        (match (mirror_pus c2_state.numa_domains).filter
            (fun q => q.thread_occupancy_count == 0) with
         | [] => []
         | p :: ps => ⟨p.id, true, false⟩ ::
             ps.map (fun q =>
               (⟨q.id, !c2_state.mode.allow_dynamic_pools, false⟩ : PuTuple))) :=
  ⟨rfl, c2_setup_pools_binding c2_state c2_result
    (init_pool_data.fresh "default" .unspecified) [] rfl rfl rfl⟩

theorem zip_mk_mask (hc : Nat) :
    ∀ (ms : List (List Bool)) (ts : List PuTuple),
      ms.length = ts.length → (∀ m ∈ ms, m.length = hc) →
      ((ms.zip ts).map (fun mt => mk_mask mt.1.length mt.2.pu_id)) =
        ts.map (fun t => mk_mask hc t.pu_id) := by
  intro ms
  induction ms with
  | nil =>
    intro ts hlen _
    cases ts with
    | nil => rfl
    | cons t ts => simp at hlen
  | cons m ms ih =>
    intro ts hlen hall
    cases ts with
    | nil => simp at hlen
    | cons t ts =>
      rw [List.zip_cons_cons, List.map_cons, List.map_cons]
      have hm : m.length = hc := hall m (by simp)
      rw [ih ts (by simpa using hlen) (fun x hx => hall x (by simp [hx]))]
      simp [hm]

theorem assign_first_core_eq_claimed (hc off : Nat) (d : init_pool_data)
    (hlen1 : d.assigned_pu_nums.length = d.num_threads)
    (hlen2 : d.assigned_pus.length = d.num_threads)
    (hmask : ∀ m ∈ d.assigned_pus, m.length = hc)
    (hids : ∀ t ∈ d.assigned_pu_nums, t.pu_id < hc)
    (hoff : off + hc ≤ size_t_mod) :
    d.assign_first_core hc off = claimed_shift_pool hc off d := by
  have htake1 : d.assigned_pu_nums.take d.num_threads = d.assigned_pu_nums := by
    rw [← hlen1]; exact List.take_length _
  have hdrop1 : d.assigned_pu_nums.drop d.num_threads = [] := by
    rw [← hlen1]; exact List.drop_length _
  have htake2 : d.assigned_pus.take d.num_threads = d.assigned_pus := by
    rw [← hlen2]; exact List.take_length _
  have hdrop2 : d.assigned_pus.drop d.num_threads = [] := by
    rw [← hlen2]; exact List.drop_length _
  have hmod : ∀ t ∈ d.assigned_pu_nums,
      ((t.pu_id + off) % size_t_mod) % hc = (t.pu_id + off) % hc := by
    intro t ht
    have : t.pu_id + off < size_t_mod := by
      have := hids t ht
      omega
    rw [Nat.mod_eq_of_lt this]
  unfold init_pool_data.assign_first_core claimed_shift_pool
  rw [htake1, hdrop1, htake2, hdrop2]
  simp only [List.append_nil]
  have hshift : d.assigned_pu_nums.map
      (fun t => ({ t with pu_id := ((t.pu_id + off) % size_t_mod) % hc } : PuTuple)) =
      d.assigned_pu_nums.map
        (fun t => ({ t with pu_id := (t.pu_id + off) % hc } : PuTuple)) :=
    List.map_congr_left (fun t ht => by rw [hmod t ht])
  rw [hshift]
  have hmasks : ((d.assigned_pus.zip (d.assigned_pu_nums.map
      (fun t => ({ t with pu_id := (t.pu_id + off) % hc } : PuTuple)))).map
        (fun mt => mk_mask mt.1.length mt.2.pu_id)) =
      d.assigned_pu_nums.map (fun t => mk_mask hc ((t.pu_id + off) % hc)) := by
    rw [zip_mk_mask hc _ _ (by rw [List.length_map, hlen1, hlen2]) hmask]
    rw [List.map_map]
    rfl
  rw [hmasks]

theorem threads_needed_fields (s : partitioner) :
    s.threads_needed.1.initial_thread_pools = s.initial_thread_pools ∧
    s.threads_needed.1.first_core = s.first_core ∧
    s.threads_needed.1.affinity = s.affinity := by
  unfold partitioner.threads_needed
  split <;> simp

theorem reconfigure_fields (s : partitioner) :
    s.reconfigure_affinities_locked.initial_thread_pools = s.initial_thread_pools ∧
    s.reconfigure_affinities_locked.first_core = s.first_core ∧
    s.reconfigure_affinities_locked.affinity.pu_nums =
      (s.initial_thread_pools.map
        (fun d => d.assigned_pu_nums.map (fun t => t.pu_id))).flatten ∧
    s.reconfigure_affinities_locked.affinity.affinity_masks =
      (s.initial_thread_pools.map (fun d => d.assigned_pus)).flatten ∧
    s.reconfigure_affinities_locked.affinity.num_threads =
      (s.initial_thread_pools.map
        (fun d => d.assigned_pu_nums.map (fun t => t.pu_id))).flatten.length := by
  unfold partitioner.reconfigure_affinities_locked
  exact ⟨rfl, rfl, rfl, rfl, rfl⟩

/-- C6 counterexample: `assign_cores` performs the shift in `std::size_t`
arithmetic, so for `first_core` BELOW the cached value the subtraction
`offset -= first_core_` wraps modulo `2 ^ 64` and the result differs from
the claim's integer formula whenever `hardware_concurrency` does not divide
`2 ^ 64`: on a 3-PU machine (1 PU per core) with cached `first_core_ = 2`,
`assign_cores(1)` leaves the pool entry's `pu_id = 0` unchanged, while
`(0 + (1 - 2) * 1) mod 3 = 2`. -/
theorem c6_unsigned_wraparound :
    ((c6_state.assign_cores 1).1.initial_thread_pools.map
      (fun d => d.assigned_pu_nums.map (fun t => t.pu_id))) = [[0]] ∧
    c6_state.first_core = 2 ∧
    c6_state.topo.hc = 3 ∧
    c6_state.topo.num_core_pus 1 = 1 ∧
    claimed_shift_int 3 2 1 1 0 = 2 ∧
    (0 : Int) ≠ 2 := by
  decide

/-- C6 (amended): `assign_cores(first_core)` computes its offset in
`std::size_t` (wrap-around) arithmetic; whenever the subtraction does not
underflow — the cached value is unset, or `cached_first_core < first_core` —
and no `2 ^ 64` wrap occurs, it realizes the claim's formula: every pool
entry's `pu_id` becomes `(pu_id + offset) mod hardware_concurrency` with
`offset = (first_core - cached) * pus_per_core(first_core)` (`offset =
first_core * pus_per_core` when the cached value is unset), each mask is
rewritten to the one-hot mask of the shifted `pu_id`, the new `first_core`
is cached, and the affinity map is rewritten pool-major from the shifted
pools. -/
theorem c6_amended_assign_cores (s : partitioner) (first_core : Nat)
    (hhc : 0 < s.topo.hc)
    (hfc : first_core < size_t_unset)
    (hcached : s.first_core < size_t_mod)
    (hcase : (s.first_core = size_t_unset ∧ 0 < first_core) ∨
             (s.first_core ≠ size_t_unset ∧ s.first_core < first_core))
    (hoff : claimed_offset s first_core + s.topo.hc ≤ size_t_mod)
    (hlen1 : ∀ d ∈ s.initial_thread_pools, d.assigned_pu_nums.length = d.num_threads)
    (hlen2 : ∀ d ∈ s.initial_thread_pools, d.assigned_pus.length = d.num_threads)
    (hmask : ∀ d ∈ s.initial_thread_pools, ∀ m ∈ d.assigned_pus, m.length = s.topo.hc)
    (hids : ∀ d ∈ s.initial_thread_pools, ∀ t ∈ d.assigned_pu_nums, t.pu_id < s.topo.hc) :
    (s.assign_cores first_core).1.initial_thread_pools =
      s.initial_thread_pools.map
        (claimed_shift_pool s.topo.hc (claimed_offset s first_core)) ∧
    (s.assign_cores first_core).1.first_core = first_core ∧
    (s.assign_cores first_core).1.affinity.pu_nums =
      ((s.initial_thread_pools.map
        (claimed_shift_pool s.topo.hc (claimed_offset s first_core))).map
          (fun d => d.assigned_pu_nums.map (fun t => t.pu_id))).flatten ∧
    (s.assign_cores first_core).1.affinity.affinity_masks =
      ((s.initial_thread_pools.map
        (claimed_shift_pool s.topo.hc (claimed_offset s first_core))).map
          (fun d => d.assigned_pus)).flatten ∧
    (s.assign_cores first_core).1.affinity.num_threads =
      ((s.initial_thread_pools.map
        (claimed_shift_pool s.topo.hc (claimed_offset s first_core))).map
          (fun d => d.assigned_pu_nums.map (fun t => t.pu_id))).flatten.length := by
  have hW : size_t_unset + 1 = size_t_mod := rfl
  have hne : s.first_core ≠ first_core := by
    rcases hcase with ⟨h1, _⟩ | ⟨_, h2⟩
    · rw [h1]; exact Nat.ne_of_gt hfc
    · exact Nat.ne_of_lt h2
  have hmap_eq : s.initial_thread_pools.map
      (init_pool_data.assign_first_core s.topo.hc (claimed_offset s first_core)) =
      s.initial_thread_pools.map
        (claimed_shift_pool s.topo.hc (claimed_offset s first_core)) :=
    List.map_congr_left (fun d hd =>
      assign_first_core_eq_claimed _ _ d (hlen1 d hd) (hlen2 d hd)
        (hmask d hd) (hids d hd) hoff)
  have hstep : s.assign_cores first_core =
      ({ s with
          initial_thread_pools := s.initial_thread_pools.map
            (init_pool_data.assign_first_core s.topo.hc (claimed_offset s first_core))
          first_core := first_core } : partitioner).reconfigure_affinities_locked.threads_needed := by
    unfold partitioner.assign_cores
    rw [if_pos hne]
    dsimp only
    rcases hcase with ⟨hA1, hA2⟩ | ⟨hB1, hB2⟩
    · have hclaim : claimed_offset s first_core =
          first_core * s.topo.num_core_pus first_core := by
        unfold claimed_offset
        rw [if_pos hA1]
      have e1 : (if s.first_core ≠ size_t_unset then
          (first_core + (size_t_mod - s.first_core % size_t_mod)) % size_t_mod
          else first_core) = first_core := by
        rw [if_neg (by simp [hA1])]
      rw [e1]
      rw [if_pos (Nat.pos_iff_ne_zero.mp hA2)]
      have e2 : (first_core * s.topo.num_core_pus first_core) % size_t_mod =
          claimed_offset s first_core := by
        rw [← hclaim]
        exact Nat.mod_eq_of_lt (by omega)
      rw [e2]
    · have hclaim : claimed_offset s first_core =
          (first_core - s.first_core) * s.topo.num_core_pus first_core := by
        unfold claimed_offset
        rw [if_neg hB1]
      have ecached : s.first_core % size_t_mod = s.first_core :=
        Nat.mod_eq_of_lt hcached
      have e1 : (if s.first_core ≠ size_t_unset then
          (first_core + (size_t_mod - s.first_core % size_t_mod)) % size_t_mod
          else first_core) = first_core - s.first_core := by
        rw [if_pos hB1, ecached]
        have h' : first_core + (size_t_mod - s.first_core) =
            size_t_mod + (first_core - s.first_core) := by omega
        rw [h', Nat.add_mod_left]
        exact Nat.mod_eq_of_lt (by omega)
      rw [e1]
      rw [if_pos (Nat.pos_iff_ne_zero.mp (Nat.sub_pos_of_lt hB2))]
      have e2 : ((first_core - s.first_core) * s.topo.num_core_pus first_core) % size_t_mod =
          claimed_offset s first_core := by
        rw [← hclaim]
        exact Nat.mod_eq_of_lt (by omega)
      rw [e2]
  rw [hstep]
  obtain ⟨T1, T2, T3⟩ := threads_needed_fields _
  obtain ⟨R1, R2, R3, R4, R5⟩ := reconfigure_fields
    ({ s with
        initial_thread_pools := s.initial_thread_pools.map
          (init_pool_data.assign_first_core s.topo.hc (claimed_offset s first_core))
        first_core := first_core } : partitioner)
  refine ⟨?_, ?_, ?_, ?_, ?_⟩
  · rw [T1, R1]
    exact hmap_eq
  · rw [T2, R2]
  · rw [T3, R3]
    rw [hmap_eq]
  · rw [T3, R4]
    rw [hmap_eq]
  · rw [T3, R5]
    rw [hmap_eq]

/-- C6 witness: the S6 scenario — default pool on PUs 0..3 of a 4-PU
1-PU-per-core machine, cached `first_core_ = 0`; `assign_cores(2)` shifts
the pool to PU ids 2,3,0,1 and rewrites masks and affinity map. -/
theorem c6_amended_witness :
    (c6w_state.assign_cores 2).1.initial_thread_pools =
      c6w_state.initial_thread_pools.map
        (claimed_shift_pool c6w_state.topo.hc (claimed_offset c6w_state 2)) ∧
    ((c6w_state.assign_cores 2).1.initial_thread_pools.map
      (fun d => d.assigned_pu_nums.map (fun t => t.pu_id))) = [[2, 3, 0, 1]] ∧
    (c6w_state.assign_cores 2).1.first_core = 2 :=
  ⟨(c6_amended_assign_cores c6w_state 2 (by decide) (by decide) (by decide)
      (Or.inr ⟨by decide, by decide⟩) (by decide) (by decide) (by decide)
      (by decide) (by decide)).1,
   by decide,
   (c6_amended_assign_cores c6w_state 2 (by decide) (by decide) (by decide)
      (Or.inr ⟨by decide, by decide⟩) (by decide) (by decide) (by decide)
      (by decide) (by decide)).2.1⟩

end HpxRp
